import Mathlib

/-!
Verification of the feed-traversal and per-item engagement orchestrator of the
social-media-agents repository, as a shallow embedding of its Python source.

The embedding covers:
* BaseScraper.get_next_post (src/core/scraper/base_scraper.py, lines 212-288):
  the scroll-driven traversal loop with its processed-posts dedup set and its
  stall counter;
* BaseAgent.run (src/agents/base_agent.py, lines 59-138): the orchestrator loop
  with per-item error absorption, and its final teardown block;
* EngagementEngine.engage (src/core/engagement/engagement_engine.py, lines
  17-47): the reaction-then-comment sequencing;
* GeminiEngine._generate_safely and GeminiEngine._parse_response
  (src/core/ai_engine/gemini_engine.py, lines 48-99): the bounded retry loop
  and the reaction/comment parser.
-/

set_option autoImplicit false
set_option linter.unusedVariables false

/-! ### Feed traversal model: BaseScraper.get_next_post

A Post models one element returned by driver.find_elements: its Selenium
element id (the dedup key stored in self.processed_posts), whether
is_displayed() returns true, the extracted content string (empty string when
the extractor finds no text), and whether extract_post_data raises. -/

structure Post where
  id : Nat
  displayed : Bool
  content : String
  extractFails : Bool
deriving DecidableEq, Repr

/-- One state of the live page: the list of post elements that
driver.find_elements returns, in visible order, and the value of
document.body.scrollHeight. -/
structure Snapshot where
  posts : List Post
  height : Nat
deriving DecidableEq, Repr

/-- The state threaded across calls of get_next_post: the current page
snapshot, the future snapshots the page moves through on each scroll step (an
empty list means further scrolling leaves the page unchanged), and the
self.processed_posts set of element ids, kept as a list. -/
structure TraverseState where
  current : Snapshot
  future : List Snapshot
  processed : List Nat
deriving DecidableEq, Repr

/-- Result of one call of get_next_post: the returned post (none models the
Python return None), the state after the call, and how many scroll steps the
call performed. -/
structure StepResult where
  post : Option Post
  state : TraverseState
  scrolls : Nat
deriving DecidableEq, Repr

/-- max_scroll_attempts = 5 at base_scraper.py line 223. -/
def maxScrollAttempts : Nat := 5

/-- The inner for-loop over current_posts (base_scraper.py lines 232-260):
the first element that is displayed, has an id not in processed_posts, whose
extraction does not raise, and whose extracted content is non-empty. Elements
that fail any of these checks are skipped without being marked processed. -/
def findNewPost (posts : List Post) (processed : List Nat) : Option Post :=
  posts.find? fun p =>
    p.displayed && !(processed.contains p.id) && !p.extractFails && p.content != ""

/-- The while-loop of get_next_post (base_scraper.py lines 226-284).
Each iteration re-reads the visible posts; if a new valid post is found its id
is added to processed_posts and it is returned; otherwise one scroll step is
performed, and the stall counter scroll_attempt is incremented when
document.body.scrollHeight is unchanged by the scroll and reset to zero when
it changed. When scroll_attempt reaches max_scroll_attempts the loop exits
and the function returns None. -/
def getNextPostLoop (cur : Snapshot) (future : List Snapshot) (processed : List Nat)
    (attempt : Nat) (scrolls : Nat) : StepResult :=
  if h : attempt < maxScrollAttempts then
    match findNewPost cur.posts processed with
    | some p => ⟨some p, ⟨cur, future, p.id :: processed⟩, scrolls⟩
    | none =>
      match future with
      | [] =>
        -- scrolling past the end of the content leaves the page unchanged,
        -- so new_height = last_height and the stall counter increments
        getNextPostLoop cur [] processed (attempt + 1) (scrolls + 1)
      | s :: rest =>
        if s.height = cur.height then
          getNextPostLoop s rest processed (attempt + 1) (scrolls + 1)
        else
          getNextPostLoop s rest processed 0 (scrolls + 1)
  else
    ⟨none, ⟨cur, future, processed⟩, scrolls⟩
termination_by (future.length, maxScrollAttempts - attempt)

/-- The kinds of exception the underlying driver can raise inside
get_next_post; the outer handler at base_scraper.py lines 286-288 catches
every one of them. -/
inductive DriverErr where
  | webdriver
deriving DecidableEq, Repr

/-- Body of get_next_post before the outer exception handler: when the driver
raises (broken = true, modelling for example find_elements raising at line
228), the body is an error; otherwise it runs the while-loop starting from
scroll_attempt = 0. -/
def getNextPostBody (broken : Bool) (st : TraverseState) : Except DriverErr StepResult :=
  if broken then Except.error DriverErr.webdriver
  else Except.ok (getNextPostLoop st.current st.future st.processed 0 0)

/-- get_next_post with its outer try/except (base_scraper.py lines 214, 286-288):
any exception is caught and the function returns None, leaving the state as
it was when the exception was raised. -/
def get_next_post (broken : Bool) (st : TraverseState) : Option Post × TraverseState :=
  match getNextPostBody broken st with
  | Except.error _ => (none, st)
  | Except.ok r => (r.post, r.state)

/-- Calling get_next_post n times in sequence within one run, threading the
page state and the processed_posts set, and collecting every returned post. -/
def runTraversal (broken : Bool) (st : TraverseState) : Nat → List Post × TraverseState
  | 0 => ([], st)
  | Nat.succ n =>
    match get_next_post broken st with
    | (some p, st1) =>
      let r := runTraversal broken st1 n
      (p :: r.1, r.2)
    | (none, st1) =>
      let r := runTraversal broken st1 n
      (r.1, r.2)

/-! ### Traversal lemmas -/

/-- The while-loop returns a post exactly when its id is not yet in
processed_posts, and it records the id at the moment it returns; when it
returns None the processed set is unchanged. -/
theorem loop_processed (cur : Snapshot) (future : List Snapshot) (processed : List Nat)
    (attempt scrolls : Nat) :
    (∀ p, (getNextPostLoop cur future processed attempt scrolls).post = some p →
      p.id ∉ processed ∧
      (getNextPostLoop cur future processed attempt scrolls).state.processed
        = p.id :: processed) ∧
    ((getNextPostLoop cur future processed attempt scrolls).post = none →
      (getNextPostLoop cur future processed attempt scrolls).state.processed = processed) := by
  induction cur, future, processed, attempt, scrolls using getNextPostLoop.induct with
  | case1 cur future processed attempt scrolls h p hfind =>
    have hf2 := hfind
    unfold findNewPost at hf2
    have hp := List.find?_some hf2
    simp at hp
    cases future with
    | nil =>
      rw [getNextPostLoop.eq_1]
      simp [h, hfind]
      exact hp.1.1.2
    | cons s rest =>
      rw [getNextPostLoop.eq_2]
      simp [h, hfind]
      exact hp.1.1.2
  | case2 cur processed attempt scrolls h hfind ih =>
    rw [getNextPostLoop.eq_1]
    simpa [h, hfind] using ih
  | case3 cur processed attempt scrolls h hfind s rest heq ih =>
    rw [getNextPostLoop.eq_2]
    simpa [h, hfind, heq] using ih
  | case4 cur processed attempt scrolls h hfind s rest heq ih =>
    rw [getNextPostLoop.eq_2]
    simpa [h, hfind, heq] using ih
  | case5 cur future processed attempt scrolls h =>
    cases future with
    | nil => rw [getNextPostLoop.eq_1]; simp [h]
    | cons s rest => rw [getNextPostLoop.eq_2]; simp [h]

/-- Any post the while-loop returns passed the non-empty-content check and
the is_displayed check. -/
theorem loop_yield_props (cur : Snapshot) (future : List Snapshot) (processed : List Nat)
    (attempt scrolls : Nat) :
    ∀ p, (getNextPostLoop cur future processed attempt scrolls).post = some p →
      p.content ≠ "" ∧ p.displayed = true := by
  induction cur, future, processed, attempt, scrolls using getNextPostLoop.induct with
  | case1 cur future processed attempt scrolls h p hfind =>
    have hf2 := hfind
    unfold findNewPost at hf2
    have hp := List.find?_some hf2
    simp at hp
    cases future with
    | nil =>
      rw [getNextPostLoop.eq_1]
      simp [h, hfind]
      exact ⟨hp.2, hp.1.1.1⟩
    | cons s rest =>
      rw [getNextPostLoop.eq_2]
      simp [h, hfind]
      exact ⟨hp.2, hp.1.1.1⟩
  | case2 cur processed attempt scrolls h hfind ih =>
    rw [getNextPostLoop.eq_1]
    simpa [h, hfind] using ih
  | case3 cur processed attempt scrolls h hfind s rest heq ih =>
    rw [getNextPostLoop.eq_2]
    simpa [h, hfind, heq] using ih
  | case4 cur processed attempt scrolls h hfind s rest heq ih =>
    rw [getNextPostLoop.eq_2]
    simpa [h, hfind, heq] using ih
  | case5 cur future processed attempt scrolls h =>
    cases future with
    | nil => rw [getNextPostLoop.eq_1]; simp [h]
    | cons s rest => rw [getNextPostLoop.eq_2]; simp [h]

/-- On a page with no new valid candidate and no further content, the loop
performs exactly maxScrollAttempts stall scroll steps and then returns None. -/
theorem stalled_loop_eval (cur : Snapshot) (processed : List Nat) (sc : Nat)
    (hfind : findNewPost cur.posts processed = none) :
    getNextPostLoop cur [] processed 0 sc = ⟨none, ⟨cur, [], processed⟩, sc + 5⟩ := by
  rw [getNextPostLoop.eq_1, dif_pos (by simp [maxScrollAttempts]), hfind]
  rw [getNextPostLoop.eq_1, dif_pos (by simp [maxScrollAttempts]), hfind]
  rw [getNextPostLoop.eq_1, dif_pos (by simp [maxScrollAttempts]), hfind]
  rw [getNextPostLoop.eq_1, dif_pos (by simp [maxScrollAttempts]), hfind]
  rw [getNextPostLoop.eq_1, dif_pos (by simp [maxScrollAttempts]), hfind]
  rw [getNextPostLoop.eq_1, dif_neg (by simp [maxScrollAttempts])]

theorem get_next_post_some (broken : Bool) (st : TraverseState) (p : Post)
    (st1 : TraverseState) (h : get_next_post broken st = (some p, st1)) :
    p.id ∉ st.processed ∧ st1.processed = p.id :: st.processed := by
  cases broken with
  | true => simp [get_next_post, getNextPostBody] at h
  | false =>
    simp only [get_next_post, getNextPostBody, Bool.false_eq_true, if_false,
      Prod.mk.injEq] at h
    obtain ⟨h1, h2⟩ := h
    have := (loop_processed st.current st.future st.processed 0 0).1 p h1
    rw [← h2]
    exact this

theorem get_next_post_none (broken : Bool) (st : TraverseState)
    (st1 : TraverseState) (h : get_next_post broken st = (none, st1)) :
    st1.processed = st.processed := by
  cases broken with
  | true =>
    simp only [get_next_post, getNextPostBody, if_true, Prod.mk.injEq] at h
    rw [← h.2]
  | false =>
    simp only [get_next_post, getNextPostBody, Bool.false_eq_true, if_false,
      Prod.mk.injEq] at h
    obtain ⟨h1, h2⟩ := h
    have := (loop_processed st.current st.future st.processed 0 0).2 h1
    rw [← h2]
    exact this

/-- Across repeated calls of get_next_post within one run, the ids of the
returned posts never repeat, none of them was in the processed set at the
start, and the processed set only grows. -/
theorem runTraversal_invariant (broken : Bool) :
    ∀ (n : Nat) (st : TraverseState),
      ((runTraversal broken st n).1.map Post.id).Nodup ∧
      (∀ i, i ∈ (runTraversal broken st n).1.map Post.id → i ∉ st.processed) ∧
      (∀ i, i ∈ st.processed → i ∈ (runTraversal broken st n).2.processed) := by
  intro n
  induction n with
  | zero => intro st; simp [runTraversal]
  | succ n ih =>
    intro st
    rcases hgp : get_next_post broken st with ⟨op, st1⟩
    cases op with
    | some p =>
      have hprops := get_next_post_some broken st p st1 hgp
      have ih1 := ih st1
      simp only [runTraversal, hgp]
      refine ⟨?_, ?_, ?_⟩
      · simp only [List.map_cons, List.nodup_cons]
        refine ⟨?_, ih1.1⟩
        intro hmem
        exact ih1.2.1 p.id hmem (by simp [hprops.2])
      · intro i hi
        simp only [List.map_cons, List.mem_cons] at hi
        cases hi with
        | inl hi => rw [hi]; exact hprops.1
        | inr hi =>
          intro hmem
          exact ih1.2.1 i hi (by simp [hprops.2, hmem])
      · intro i hi
        exact ih1.2.2 i (by simp [hprops.2, hi])
    | none =>
      have hproc := get_next_post_none broken st st1 hgp
      have ih1 := ih st1
      simp only [runTraversal, hgp]
      refine ⟨ih1.1, ?_, ?_⟩
      · intro i hi
        rw [← hproc]
        exact ih1.2.1 i hi
      · intro i hi
        exact ih1.2.2 i (by rw [hproc]; exact hi)

/-! ### Orchestrator model: BaseAgent.run

The per-item loop of BaseAgent.run (src/agents/base_agent.py, lines 74-125):
while posts_processed < max_posts it pulls the next post, generates a
response, engages, and increments posts_processed; an asyncio.TimeoutError or
any other exception raised by an iteration is caught by the two handlers at
lines 120-125, which log and continue with the next iteration. -/

/-- A failure of the generation stage as observed at the loop boundary:
the asyncio.wait_for timeout or an exception from generate_response. -/
inductive GenFailure where
  | timeout
  | failure
deriving DecidableEq, Repr

/-- A failure of the engagement stage as observed at the loop boundary:
a rate-limit signal, the asyncio.wait_for timeout, or any other exception
from engage. -/
inductive EngFailure where
  | rateLimit
  | timeout
  | failure
deriving DecidableEq, Repr

deriving instance DecidableEq for Except

/-- What one iteration of the while-loop observes: the pull of
get_next_post raised or timed out (pullErr), returned None (feedEnd), or
returned a post together with the outcomes of the generation and
engagement stages. -/
inductive PullEvent where
  | pullErr : PullEvent
  | feedEnd : PullEvent
  | item : Except GenFailure String → Except EngFailure Unit → PullEvent
deriving DecidableEq, Repr

/-- Run-level counters. posts_processed is the loop counter of
BaseAgent.run; itemsYielded counts the pulls that returned a post;
cooldowns counts the cooldown pauses the orchestrator performs inside its
exception handlers (the handlers at base_agent.py lines 120-125 only log and
continue, so no code path increments it). -/
structure RunStats where
  postsProcessed : Nat
  itemsYielded : Nat
  cooldowns : Nat
deriving DecidableEq, Repr

/-- The while-loop of BaseAgent.run over the sequence of its iteration
events. A stage failure is absorbed by the handlers and the loop continues;
a None pull breaks the loop; posts_processed increments only after a fully
successful item. -/
def agentLoop (maxPosts : Nat) : List PullEvent → RunStats → RunStats
  | [], s => s
  | e :: rest, s =>
    if s.postsProcessed < maxPosts then
      match e with
      | PullEvent.pullErr => agentLoop maxPosts rest s
      | PullEvent.feedEnd => s
      | PullEvent.item gen eng =>
        let s1 : RunStats := { s with itemsYielded := s.itemsYielded + 1 }
        match gen with
        | Except.error _ => agentLoop maxPosts rest s1
        | Except.ok _ =>
          match eng with
          | Except.error _ => agentLoop maxPosts rest s1
          | Except.ok _ =>
            agentLoop maxPosts rest { s1 with postsProcessed := s1.postsProcessed + 1 }
    else s

/-- The asyncio.wait_for timeout, in seconds, that BaseAgent.run puts on the
generation stage (base_agent.py line 100). -/
def generationTimeoutSeconds : Nat := 30

/-! ### Engagement model: EngagementEngine.engage

engage (engagement_engine.py, lines 17-47) looks up the post element, runs
the reaction sub-step and then the comment sub-step; _add_reaction (lines
49-134) re-raises any of its failures, so the surrounding try of engage
converts it to an EngagementError before _add_comment is ever called. -/

/-- The environment one engage call runs against: whether the post dict has
an element, whether the reaction sub-step completes without raising, and
whether the comment sub-step would complete without raising. -/
structure EngageWorld where
  hasElement : Bool
  reactionOk : Bool
  commentOk : Bool
deriving DecidableEq, Repr

/-- What an engage call did: which sub-steps were attempted and whether the
call raised EngagementError. -/
structure EngageTrace where
  reactionAttempted : Bool
  commentAttempted : Bool
  raisedEngagementError : Bool
deriving DecidableEq, Repr

/-- EngagementEngine.engage: a missing element raises before any sub-step; a
failure raised by _add_reaction propagates into the outer except of engage,
so the comment sub-step is not attempted; a comment failure raises after
both sub-steps ran; only when both succeed does engage return normally. -/
def engage (w : EngageWorld) : EngageTrace :=
  if !w.hasElement then ⟨false, false, true⟩
  else if !w.reactionOk then ⟨true, false, true⟩
  else if !w.commentOk then ⟨true, true, true⟩
  else ⟨true, true, false⟩

/-! ### Teardown model: the finally block of BaseAgent.run

The finally block (base_agent.py, lines 132-138) calls
await self.scraper.cleanup() when the scraper attribute exists, and its inner
except absorbs any exception of that call. BaseScraper
(src/core/scraper/base_scraper.py) is the class of the scraper of every agent and
the methods below are all the methods it defines; no cleanup method is among
them and nothing in the repository ever calls driver.quit, so the cleanup
call raises AttributeError, the handler logs it, and the driver stays open. -/

def baseScraperMethods : List String :=
  ["initialize_driver", "login", "wait_for_element", "check_for_rate_limit",
   "check_for_login_errors", "get_posts", "_is_session_valid", "get_next_post",
   "_get_post_content", "_get_reaction_button"]

/-- Outcome of the finally block: whether a teardown call was attempted and
whether the driver session actually got closed. -/
structure TeardownOutcome where
  attempted : Bool
  driverClosed : Bool
deriving DecidableEq, Repr

/-- The finally block: with a scraper present it attempts the cleanup call;
the call closes the driver only if BaseScraper actually defines cleanup,
otherwise the AttributeError is absorbed and the driver stays open. -/
def runFinally (hasScraper : Bool) : TeardownOutcome :=
  if hasScraper then
    if baseScraperMethods.contains "cleanup" then ⟨true, true⟩
    else ⟨true, false⟩
  else ⟨false, false⟩

/-- The ways BaseAgent.run can leave its while-loop. -/
inductive RunExit where
  | targetReached
  | feedExhausted
  | aborted
deriving DecidableEq, Repr

/-- Every exit of BaseAgent.run runs the finally block with the scraper
attribute set (it is assigned in BaseAgent.__init__ before run can be
called). -/
def runWithTeardown (e : RunExit) : RunExit × TeardownOutcome :=
  (e, runFinally true)

/-! ### Content generation model: GeminiEngine

_generate_safely (gemini_engine.py, lines 48-63) calls the provider up to
max_retries times: a success is returned immediately; a failure on the last
allowed attempt is re-raised; earlier failures sleep one second and retry.
The provider is modelled as the outcome of its k-th call (k counted from 0). -/

/-- An exception raised by the underlying provider call; the code is a label
distinguishing the errors of different attempts. -/
inductive ProviderError where
  | failure : Nat → ProviderError
deriving DecidableEq, Repr

/-- The for-loop of _generate_safely, at loop variable attempt with the
given number of allowed attempts still remaining (attempt + remaining =
max_retries along the call from generate_safely). Returns the Python return
value (none models the implicit None when the range is empty) together with
the number of provider calls performed. -/
def generateSafelyLoop (provider : Nat → Except ProviderError String) :
    Nat → Nat → Option (Except ProviderError String) × Nat
  | attempt, 0 => (none, attempt)
  | attempt, Nat.succ remaining =>
    match provider attempt with
    | Except.ok s => (some (Except.ok s), attempt + 1)
    | Except.error e =>
      if remaining = 0 then (some (Except.error e), attempt + 1)
      else generateSafelyLoop provider (attempt + 1) remaining

/-- _generate_safely with its default max_retries: the loop started at
attempt 0. -/
def generate_safely (provider : Nat → Except ProviderError String)
    (maxRetries : Nat) : Option (Except ProviderError String) × Nat :=
  generateSafelyLoop provider 0 maxRetries

/-! ### Response parsing model: GeminiEngine._parse_response

The Python string primitives strip, upper, split and the prefix test are
modelled on the underlying character lists so that they evaluate on concrete
inputs. -/

/-- Python strip: drop leading and trailing whitespace characters. -/
def pyStrip (s : String) : String :=
  String.mk (((s.toList.dropWhile Char.isWhitespace).reverse.dropWhile
    Char.isWhitespace).reverse)

/-- Python upper: uppercase every character. -/
def pyUpper (s : String) : String :=
  String.mk (s.toList.map Char.toUpper)

/-- Splitting a character list at every occurrence of the separator
character; the empty list splits to one empty piece, as in Python. -/
def splitOnChar (c : Char) : List Char → List (List Char)
  | [] => [[]]
  | x :: rest =>
    match splitOnChar c rest with
    | [] => [[x]]
    | y :: ys => if x = c then [] :: y :: ys else (x :: y) :: ys

/-- Python split on the newline character. -/
def splitLines (s : String) : List String :=
  (splitOnChar (Char.ofNat 10) s.toList).map String.mk

/-- The reaction keywords scanned for, in the order of the Python list at
gemini_engine.py lines 80-81. -/
def reactionKeywords : List String :=
  ["LIKE", "CELEBRATE", "SUPPORT", "FUNNY", "LOVE", "INSIGHTFUL"]

/-- Python substring containment, on the underlying character lists: the
pattern occurs as a contiguous run somewhere in s. -/
def containsSubstr (s pat : String) : Bool :=
  (List.range (s.toList.length + 1)).any (fun i => pat.toList.isPrefixOf (s.toList.drop i))

/-- The leading markers that disqualify a line from being taken as the
comment (gemini_engine.py line 87). -/
def commentSkipMarks : List String :=
  ["1.", "2.", "-", "Generate:", "Consider:"]

structure ParsedResponse where
  reaction : String
  comment : String
deriving DecidableEq, Repr

/-- One iteration of the for-loop over lines (gemini_engine.py lines 76-88):
the line is stripped; if any reaction keyword occurs in its uppercasing, the
reaction becomes the first keyword that occurs; otherwise a long enough line
that does not start with a skip marker becomes the current comment. -/
def parseLinesStep (acc : ParsedResponse) (rawLine : String) : ParsedResponse :=
  let line := pyStrip rawLine
  let u := pyUpper line
  if reactionKeywords.any (fun r => containsSubstr u r) then
    { acc with reaction := ((reactionKeywords.find? (fun r => containsSubstr u r)).getD acc.reaction) }
  else if line.length > 10 && !(commentSkipMarks.any (fun m => m.toList.isPrefixOf line.toList)) then
    { acc with comment := line }
  else acc

/-- The fallback comment (gemini_engine.py lines 91-92): the first longest
of the lines longer than ten characters, or the fixed default. -/
def longestLine (ls : List String) : String :=
  match ls.filter (fun l => l.length > 10) with
  | [] => "Great insights!"
  | x :: rest => rest.foldl (fun best l => if l.length > best.length then l else best) x

/-- _parse_response: split the stripped response into lines, fold the
per-line scan starting from the defaults, then fill in the fallback comment
when none was found. -/
def parse_response (response : String) : ParsedResponse :=
  let lines := splitLines (pyStrip response)
  let parsed := lines.foldl parseLinesStep ⟨"LIKE", ""⟩
  if parsed.comment = "" then { parsed with comment := longestLine lines }
  else parsed

/-! ### Claim theorems -/

/-- C1: over every sequence of scroll/visibility snapshots, including ones
where the same feed item reappears in later snapshots, repeated calls of
get_next_post within one run never return two posts with the same item
identity: the ids of the returned posts are pairwise distinct, because each
returned id is recorded in processed_posts and later calls skip it. -/
theorem c1_dedup_invariant (broken : Bool) (st : TraverseState) (n : Nat) :
    ((runTraversal broken st n).1.map Post.id).Nodup :=
  (runTraversal_invariant broken n st).1

/-- C2 counterexample: in a world where the post element exists, the
reaction sub-step fails and the comment sub-step would succeed, engage does
not attempt the comment sub-step and raises EngagementError: the outcome is
a hard failure, not partial success with reacted false and commented true. -/
theorem c2_counterexample :
    (engage ⟨true, false, true⟩).commentAttempted = false ∧
    (engage ⟨true, false, true⟩).raisedEngagementError = true := by
  decide

/-- C2 (amended): whenever the reaction sub-step fails, engage propagates
the failure as an EngagementError without attempting the comment sub-step;
the engagement stage offers no partial success across a failed reaction. -/
theorem c2_amended (w : EngageWorld) (hel : w.hasElement = true)
    (hre : w.reactionOk = false) :
    engage w = ⟨true, false, true⟩ := by
  simp [engage, hel, hre]

theorem c2_amended_witness :
    engage ⟨true, false, false⟩ = ⟨true, false, true⟩ :=
  c2_amended ⟨true, false, false⟩ rfl rfl

/-- C3: no stage failure escapes the per-item boundary of the BaseAgent.run
loop: a pull that raises or times out, a generation failure, and an
engagement failure each leave the loop running on the remaining items (with
the failing item counted as yielded where it was returned by the pull), and
the run-level count of yielded items never decreases as the loop keeps
processing subsequent items. -/
theorem c3_failure_isolation :
    (∀ mp rest s, s.postsProcessed < mp →
      agentLoop mp (PullEvent.pullErr :: rest) s = agentLoop mp rest s) ∧
    (∀ mp rest s e eng, s.postsProcessed < mp →
      agentLoop mp (PullEvent.item (Except.error e) eng :: rest) s
        = agentLoop mp rest { s with itemsYielded := s.itemsYielded + 1 }) ∧
    (∀ mp rest s g e, s.postsProcessed < mp →
      agentLoop mp (PullEvent.item (Except.ok g) (Except.error e) :: rest) s
        = agentLoop mp rest { s with itemsYielded := s.itemsYielded + 1 }) ∧
    (∀ mp evs s, s.itemsYielded ≤ (agentLoop mp evs s).itemsYielded) := by
  refine ⟨?_, ?_, ?_, ?_⟩
  · intro mp rest s h
    simp [agentLoop, h]
  · intro mp rest s e eng h
    simp [agentLoop, h]
  · intro mp rest s g e h
    simp [agentLoop, h]
  · intro mp evs
    induction evs with
    | nil => intro s; simp [agentLoop]
    | cons e rest ih =>
      intro s
      by_cases h : s.postsProcessed < mp
      · cases e with
        | pullErr => simpa [agentLoop, h] using ih s
        | feedEnd => simp [agentLoop, h]
        | item gen eng =>
          cases gen with
          | error e2 =>
            simp only [agentLoop, if_pos h]
            exact le_trans (Nat.le_succ _)
              (ih ⟨s.postsProcessed, s.itemsYielded + 1, s.cooldowns⟩)
          | ok g =>
            cases eng with
            | error e2 =>
              simp only [agentLoop, if_pos h]
              exact le_trans (Nat.le_succ _)
                (ih ⟨s.postsProcessed, s.itemsYielded + 1, s.cooldowns⟩)
            | ok u =>
              simp only [agentLoop, if_pos h]
              exact le_trans (Nat.le_succ _)
                (ih ⟨s.postsProcessed + 1, s.itemsYielded + 1, s.cooldowns⟩)
      · simp [agentLoop, h]

theorem c3_failure_isolation_witness :
    agentLoop 30 [PullEvent.item (Except.error GenFailure.timeout) (Except.ok ())] ⟨0, 0, 0⟩
      = agentLoop 30 [] ⟨0, 1, 0⟩ :=
  c3_failure_isolation.2.1 30 [] ⟨0, 0, 0⟩ GenFailure.timeout (Except.ok ()) (by decide)

/-- The ten-of-eleven-items feed of the rate-limit scenario: four successful
items, a fifth item whose engagement hits a rate-limit signal, then six more
successful items. -/
def c5Events : List PullEvent :=
  [PullEvent.item (Except.ok "c") (Except.ok ()),
   PullEvent.item (Except.ok "c") (Except.ok ()),
   PullEvent.item (Except.ok "c") (Except.ok ()),
   PullEvent.item (Except.ok "c") (Except.ok ()),
   PullEvent.item (Except.ok "c") (Except.error EngFailure.rateLimit),
   PullEvent.item (Except.ok "c") (Except.ok ()),
   PullEvent.item (Except.ok "c") (Except.ok ()),
   PullEvent.item (Except.ok "c") (Except.ok ()),
   PullEvent.item (Except.ok "c") (Except.ok ()),
   PullEvent.item (Except.ok "c") (Except.ok ()),
   PullEvent.item (Except.ok "c") (Except.ok ())]

/-- C5 counterexample: with a rate-limit signal during the engagement of the
fifth item and no further signals, the run continues and reaches the target
of ten processed items, but the orchestrator applies zero cooldowns, not
exactly one: its exception handlers only log and continue. -/
theorem c5_counterexample :
    agentLoop 10 c5Events ⟨0, 0, 0⟩ = ⟨10, 11, 0⟩ ∧
    (agentLoop 10 c5Events ⟨0, 0, 0⟩).cooldowns ≠ 1 := by
  decide

/-- C5 (amended): a rate-limit signal during engagement is absorbed like any
other engagement failure: the orchestrator continues immediately with the
next pull, no code path ever performs a cooldown, and, the feed permitting,
the run still reaches its target. -/
theorem c5_amended :
    (∀ mp rest s g, s.postsProcessed < mp →
      agentLoop mp
          (PullEvent.item (Except.ok g) (Except.error EngFailure.rateLimit) :: rest) s
        = agentLoop mp rest { s with itemsYielded := s.itemsYielded + 1 }) ∧
    (∀ mp evs s, (agentLoop mp evs s).cooldowns = s.cooldowns) ∧
    (agentLoop 10 c5Events ⟨0, 0, 0⟩).postsProcessed = 10 := by
  refine ⟨?_, ?_, by decide⟩
  · intro mp rest s g h
    simp [agentLoop, h]
  · intro mp evs
    induction evs with
    | nil => intro s; simp [agentLoop]
    | cons e rest ih =>
      intro s
      by_cases h : s.postsProcessed < mp
      · cases e with
        | pullErr => simpa [agentLoop, h] using ih s
        | feedEnd => simp [agentLoop, h]
        | item gen eng =>
          cases gen with
          | error e2 =>
            simp only [agentLoop, if_pos h]
            exact ih _
          | ok g =>
            cases eng with
            | error e2 =>
              simp only [agentLoop, if_pos h]
              exact ih _
            | ok u =>
              simp only [agentLoop, if_pos h]
              exact ih _
      · simp [agentLoop, h]

theorem c5_amended_witness :
    agentLoop 10 [PullEvent.item (Except.ok "c") (Except.error EngFailure.rateLimit)] ⟨0, 0, 0⟩
      = agentLoop 10 [] ⟨0, 1, 0⟩ :=
  c5_amended.1 10 [] ⟨0, 0, 0⟩ "c" (by decide)

/-- C7 (code bug): on every exit path of BaseAgent.run the finally block
attempts the teardown call, but BaseScraper defines no cleanup method, so
the attempt raises AttributeError, the handler absorbs it, and the driver
session is never actually closed. -/
theorem c7_teardown_bug :
    ∀ e : RunExit, (runWithTeardown e).2.attempted = true ∧
      (runWithTeardown e).2.driverClosed = false := by
  intro e
  exact ⟨rfl, rfl⟩

/-- The state of a feed that is already exhausted: nothing visible, and
scrolling changes nothing. -/
def exhaustedFeed : TraverseState := ⟨⟨[], 0⟩, [], []⟩

/-- C10: get_next_post never propagates an exception: a driver failure makes
the body error, the outer handler converts it to the return value None, and
None is also exactly what an exhausted feed returns, so the caller cannot
tell an internal traversal error from feed exhaustion. -/
theorem c10_error_indistinguishable :
    (∀ st : TraverseState, getNextPostBody true st = Except.error DriverErr.webdriver) ∧
    (∀ st : TraverseState, get_next_post true st = (none, st)) ∧
    get_next_post false exhaustedFeed = (none, exhaustedFeed) := by
  refine ⟨fun st => rfl, fun st => rfl, ?_⟩
  simp only [get_next_post, getNextPostBody, Bool.false_eq_true, if_false]
  rw [show exhaustedFeed.current = ⟨[], 0⟩ from rfl,
    show exhaustedFeed.future = [] from rfl,
    show exhaustedFeed.processed = [] from rfl,
    stalled_loop_eval ⟨[], 0⟩ [] 0 rfl]
  rfl

/-- A feed whose scroll steps never reveal any candidate and whose document
extent strictly decreases for six steps and then stays fixed. -/
def decreasingFeed : TraverseState :=
  ⟨⟨[], 10⟩, [⟨[], 9⟩, ⟨[], 8⟩, ⟨[], 7⟩, ⟨[], 6⟩, ⟨[], 5⟩, ⟨[], 4⟩], []⟩

/-- C4 counterexample: on decreasingFeed every scroll step produces no new
candidate and does not increase the document extent, so by the claim every
step is a stall and the call should return END after exactly five of them;
the code instead resets its counter on every height change (decreases
included) and only returns END after eleven scroll steps. -/
theorem c4_counterexample :
    (getNextPostLoop decreasingFeed.current decreasingFeed.future
        decreasingFeed.processed 0 0).post = none ∧
    (getNextPostLoop decreasingFeed.current decreasingFeed.future
        decreasingFeed.processed 0 0).scrolls = 11 ∧
    (getNextPostLoop decreasingFeed.current decreasingFeed.future
        decreasingFeed.processed 0 0).scrolls ≠ 5 := by
  have h0 : findNewPost ([] : List Post) ([] : List Nat) = none := rfl
  rw [show decreasingFeed.current = ⟨[], 10⟩ from rfl,
    show decreasingFeed.future
      = [⟨[], 9⟩, ⟨[], 8⟩, ⟨[], 7⟩, ⟨[], 6⟩, ⟨[], 5⟩, ⟨[], 4⟩] from rfl,
    show decreasingFeed.processed = [] from rfl]
  rw [getNextPostLoop.eq_2, dif_pos (by simp [maxScrollAttempts])]
  simp only [h0, if_neg (by decide : ¬(9 = 10))]
  rw [getNextPostLoop.eq_2, dif_pos (by simp [maxScrollAttempts])]
  simp only [h0, if_neg (by decide : ¬(8 = 9))]
  rw [getNextPostLoop.eq_2, dif_pos (by simp [maxScrollAttempts])]
  simp only [h0, if_neg (by decide : ¬(7 = 8))]
  rw [getNextPostLoop.eq_2, dif_pos (by simp [maxScrollAttempts])]
  simp only [h0, if_neg (by decide : ¬(6 = 7))]
  rw [getNextPostLoop.eq_2, dif_pos (by simp [maxScrollAttempts])]
  simp only [h0, if_neg (by decide : ¬(5 = 6))]
  rw [getNextPostLoop.eq_2, dif_pos (by simp [maxScrollAttempts])]
  simp only [h0, if_neg (by decide : ¬(4 = 5))]
  rw [stalled_loop_eval ⟨[], 4⟩ [] 6 rfl]
  exact ⟨rfl, rfl, by decide⟩

/-- C4 (amended): a stall is a scroll step that produces no new candidates
and leaves the document extent unchanged; after exactly maxScrollAttempts
consecutive such stalls get_next_post returns END and not later, an
unchanged-extent no-candidate scroll increments the consecutive-stall
counter, and any extent change, increase or decrease, resets it. -/
theorem c4_amended :
    (∀ cur processed sc, findNewPost cur.posts processed = none →
      getNextPostLoop cur [] processed 0 sc
        = ⟨none, ⟨cur, [], processed⟩, sc + 5⟩) ∧
    (∀ cur s rest processed a sc, a < maxScrollAttempts →
      findNewPost cur.posts processed = none → s.height = cur.height →
      getNextPostLoop cur (s :: rest) processed a sc
        = getNextPostLoop s rest processed (a + 1) (sc + 1)) ∧
    (∀ cur s rest processed a sc, a < maxScrollAttempts →
      findNewPost cur.posts processed = none → s.height ≠ cur.height →
      getNextPostLoop cur (s :: rest) processed a sc
        = getNextPostLoop s rest processed 0 (sc + 1)) := by
  refine ⟨stalled_loop_eval, ?_, ?_⟩
  · intro cur s rest processed a sc ha hfind hh
    rw [getNextPostLoop.eq_2, dif_pos ha, hfind]
    simp [hh]
  · intro cur s rest processed a sc ha hfind hh
    rw [getNextPostLoop.eq_2, dif_pos ha, hfind]
    simp [hh]

theorem c4_amended_witness :
    getNextPostLoop ⟨[], 0⟩ [] [] 0 0 = ⟨none, ⟨⟨[], 0⟩, [], []⟩, 5⟩ :=
  c4_amended.1 ⟨[], 0⟩ [] 0 rfl

def postA : Post := ⟨1, true, "post A", false⟩
def postB : Post := ⟨2, true, "", false⟩
def postC : Post := ⟨3, true, "post C", false⟩

/-- The A,B,A,C scenario feed: A and B are visible on the first pass, one
scroll reveals A again together with C, and the extraction of B returns empty
text. -/
def scenarioFeed : TraverseState :=
  ⟨⟨[postA, postB], 10⟩, [⟨[postA, postB, postC], 20⟩], []⟩

/-- Evaluating three traversal pulls on the scenario feed: the run returns
exactly A then C; B is skipped inside the loop because its content is empty,
and the third pull stalls out and returns None. -/
theorem scenario_eval : (runTraversal false scenarioFeed 3).1 = [postA, postC] := by
  have e1 : findNewPost [postA, postB] [] = some postA := by decide
  have e2 : findNewPost [postA, postB] [1] = none := by decide
  have e3 : findNewPost [postA, postB, postC] [1] = some postC := by decide
  have e4 : findNewPost [postA, postB, postC] [3, 1] = none := by decide
  have c1 : get_next_post false scenarioFeed
      = (some postA, ⟨⟨[postA, postB], 10⟩, [⟨[postA, postB, postC], 20⟩], [1]⟩) := by
    simp only [get_next_post, getNextPostBody, Bool.false_eq_true, if_false]
    rw [show scenarioFeed.current = ⟨[postA, postB], 10⟩ from rfl,
      show scenarioFeed.future = [⟨[postA, postB, postC], 20⟩] from rfl,
      show scenarioFeed.processed = [] from rfl]
    rw [getNextPostLoop.eq_2, dif_pos (by simp [maxScrollAttempts])]
    simp only [e1]
    rfl
  have c2 : get_next_post false ⟨⟨[postA, postB], 10⟩, [⟨[postA, postB, postC], 20⟩], [1]⟩
      = (some postC, ⟨⟨[postA, postB, postC], 20⟩, [], [3, 1]⟩) := by
    simp only [get_next_post, getNextPostBody, Bool.false_eq_true, if_false]
    rw [getNextPostLoop.eq_2, dif_pos (by simp [maxScrollAttempts])]
    simp only [e2, if_neg (by decide : ¬(20 = 10))]
    rw [getNextPostLoop.eq_1, dif_pos (by simp [maxScrollAttempts])]
    simp only [e3]
    rfl
  have c3 : get_next_post false ⟨⟨[postA, postB, postC], 20⟩, [], [3, 1]⟩
      = (none, ⟨⟨[postA, postB, postC], 20⟩, [], [3, 1]⟩) := by
    simp only [get_next_post, getNextPostBody, Bool.false_eq_true, if_false]
    rw [stalled_loop_eval ⟨[postA, postB, postC], 20⟩ [3, 1] 0 e4]
  simp only [runTraversal, c1, c2, c3]

/-- C6 counterexample: in the A,B,A,C scenario with B extracting empty text,
the traversal never yields B at all: the run pulls exactly the two posts A
and C, so only two items are attempted, not the claimed three, and no
B item ever reaches the pipeline to be reported as an empty skip. -/
theorem c6_counterexample :
    ((runTraversal false scenarioFeed 3).1.map Post.id = [1, 3]) ∧
    (runTraversal false scenarioFeed 3).1.length = 2 ∧
    (runTraversal false scenarioFeed 3).1.length ≠ 3 := by
  rw [scenario_eval]
  exact ⟨rfl, rfl, by decide⟩

/-- C6 (amended): an item whose extraction returns empty text is skipped
silently inside the traversal rather than yielded for processing: no post
returned by the loop has empty content, so in the A,B,A,C scenario with B
empty the run attempts exactly the two items A and C, and when both engage
successfully the run ends with two processed items. -/
theorem c6_amended :
    (∀ cur future processed attempt scrolls p,
      (getNextPostLoop cur future processed attempt scrolls).post = some p →
      p.content ≠ "") ∧
    ((runTraversal false scenarioFeed 3).1.map Post.id = [1, 3]) ∧
    (agentLoop 3 [PullEvent.item (Except.ok "c") (Except.ok ()),
        PullEvent.item (Except.ok "c") (Except.ok ()), PullEvent.feedEnd]
      ⟨0, 0, 0⟩).postsProcessed = 2 := by
  refine ⟨?_, by rw [scenario_eval]; rfl, by decide⟩
  intro cur future processed attempt scrolls p h
  exact (loop_yield_props cur future processed attempt scrolls p h).1

theorem c6_amended_witness : ("post A" : String) ≠ "" := by
  apply c6_amended.1 ⟨[postA], 0⟩ [] [] 0 0 postA
  rw [getNextPostLoop.eq_1, dif_pos (by simp [maxScrollAttempts]),
    show findNewPost [postA] [] = some postA from by decide]

/-- The retry loop only ever looks at the provider outcomes of the attempts
it is allowed to make: its result is determined by the attempts with index
between the current loop variable and the last allowed one. -/
theorem generateSafelyLoop_congr (p q : Nat → Except ProviderError String) :
    ∀ rem attempt, (∀ i, attempt ≤ i → i < attempt + rem → p i = q i) →
      generateSafelyLoop p attempt rem = generateSafelyLoop q attempt rem := by
  intro rem
  induction rem with
  | zero => intro attempt h; rfl
  | succ rem ih =>
    intro attempt h
    have hpq : p attempt = q attempt := h attempt (le_refl _) (by omega)
    simp only [generateSafelyLoop]
    rw [hpq]
    cases q attempt with
    | ok s => rfl
    | error e =>
      by_cases hr : rem = 0
      · simp [hr]
      · simp only [if_neg hr]
        exact ih (attempt + 1) (fun i h1 h2 => h i (by omega) (by omega))

/-- C8: the generation stage is wrapped in the 30-second asyncio.wait_for of
BaseAgent.run, and _generate_safely makes at most three provider attempts: a
success on any attempt is returned immediately with no further calls, the
provider error is surfaced only when the third attempt also fails, and the
result never depends on provider outcomes beyond the allowed attempts. -/
theorem c8_generation_retry :
    (∀ (provider : Nat → Except ProviderError String) (s : String) (k : Nat),
      k < 3 → (∀ i, i < k → ∃ e, provider i = Except.error e) →
      provider k = Except.ok s →
      generate_safely provider 3 = (some (Except.ok s), k + 1)) ∧
    (∀ (provider : Nat → Except ProviderError String) (e0 e1 e2 : ProviderError),
      provider 0 = Except.error e0 → provider 1 = Except.error e1 →
      provider 2 = Except.error e2 →
      generate_safely provider 3 = (some (Except.error e2), 3)) ∧
    (∀ (p q : Nat → Except ProviderError String) (n : Nat),
      (∀ i, i < n → p i = q i) →
      generate_safely p n = generate_safely q n) ∧
    generationTimeoutSeconds = 30 := by
  refine ⟨?_, ?_, ?_, rfl⟩
  · intro provider s k hk hprev hok
    interval_cases k
    · simp [generate_safely, generateSafelyLoop, hok]
    · obtain ⟨e0, he0⟩ := hprev 0 (by omega)
      simp [generate_safely, generateSafelyLoop, he0, hok]
    · obtain ⟨e0, he0⟩ := hprev 0 (by omega)
      obtain ⟨e1, he1⟩ := hprev 1 (by omega)
      simp [generate_safely, generateSafelyLoop, he0, he1, hok]
  · intro provider e0 e1 e2 h0 h1 h2
    simp [generate_safely, generateSafelyLoop, h0, h1, h2]
  · intro p q n h
    exact generateSafelyLoop_congr p q n 0 (fun i h1 h2 => h i (by omega))

theorem c8_generation_retry_witness :
    generate_safely
        (fun i => if i = 0 then Except.error (ProviderError.failure 0) else Except.ok "hi") 3
      = (some (Except.ok "hi"), 2) :=
  c8_generation_retry.1
    (fun i => if i = 0 then Except.error (ProviderError.failure 0) else Except.ok "hi")
    "hi" 1 (by decide)
    (fun i hi => ⟨ProviderError.failure 0, by
      have h0 : i = 0 := by omega
      subst h0
      rfl⟩)
    rfl

/-- One parse step never leaves the closed keyword set: the reaction is
either kept or replaced by a keyword found in the list. -/
theorem parseLinesStep_mem (acc : ParsedResponse) (l : String)
    (h : acc.reaction ∈ reactionKeywords) :
    (parseLinesStep acc l).reaction ∈ reactionKeywords := by
  simp only [parseLinesStep]
  split
  · cases hfind : reactionKeywords.find? (fun r => containsSubstr (pyUpper (pyStrip l)) r) with
    | some r =>
      simp only [hfind, Option.getD_some]
      exact List.mem_of_find?_eq_some hfind
    | none => simpa [hfind] using h
  · split
    · simpa using h
    · simpa using h

theorem foldl_parse_mem (ls : List String) :
    ∀ acc : ParsedResponse, acc.reaction ∈ reactionKeywords →
      (ls.foldl parseLinesStep acc).reaction ∈ reactionKeywords := by
  induction ls with
  | nil => intro acc h; simpa using h
  | cons l rest ih =>
    intro acc h
    simpa using ih (parseLinesStep acc l) (parseLinesStep_mem acc l h)

/-- When no line mentions a keyword, no parse step ever changes the
reaction. -/
theorem foldl_parse_keep (ls : List String) :
    ∀ acc : ParsedResponse,
      (∀ l ∈ ls,
        reactionKeywords.any (fun r => containsSubstr (pyUpper (pyStrip l)) r) = false) →
      (ls.foldl parseLinesStep acc).reaction = acc.reaction := by
  induction ls with
  | nil => intro acc h; rfl
  | cons l rest ih =>
    intro acc h
    have h1 := h l (by simp)
    have hstep : (parseLinesStep acc l).reaction = acc.reaction := by
      simp only [parseLinesStep, h1, Bool.false_eq_true, if_false]
      split <;> rfl
    have := ih (parseLinesStep acc l) (fun x hx => h x (by simp [hx]))
    simpa [hstep] using this

/-- The final comment fallback of parse_response does not touch the
reaction. -/
theorem parse_response_reaction (response : String) :
    (parse_response response).reaction
      = ((splitLines (pyStrip response)).foldl parseLinesStep ⟨"LIKE", ""⟩).reaction := by
  simp only [parse_response]
  split <;> rfl

/-- C9: whatever the generator response, the parsed reaction category lies
in the closed set LIKE, CELEBRATE, SUPPORT, LOVE, INSIGHTFUL, FUNNY, and
when no line of the response mentions any of the six keywords the parse
falls back to the default LIKE. -/
theorem c9_reaction_closed_set :
    (∀ response : String,
      (parse_response response).reaction = "LIKE" ∨
      (parse_response response).reaction = "CELEBRATE" ∨
      (parse_response response).reaction = "SUPPORT" ∨
      (parse_response response).reaction = "LOVE" ∨
      (parse_response response).reaction = "INSIGHTFUL" ∨
      (parse_response response).reaction = "FUNNY") ∧
    (∀ response : String,
      (∀ l ∈ splitLines (pyStrip response),
        reactionKeywords.any (fun r => containsSubstr (pyUpper (pyStrip l)) r) = false) →
      (parse_response response).reaction = "LIKE") := by
  constructor
  · intro response
    have hmem := foldl_parse_mem (splitLines (pyStrip response)) ⟨"LIKE", ""⟩ (by decide)
    rw [parse_response_reaction]
    simp only [reactionKeywords, List.mem_cons, List.mem_singleton,
      List.not_mem_nil, or_false] at hmem
    tauto
  · intro response h
    rw [parse_response_reaction]
    exact foldl_parse_keep (splitLines (pyStrip response)) ⟨"LIKE", ""⟩ h

theorem c9_reaction_closed_set_witness :
    (parse_response "ok").reaction = "LIKE" :=
  c9_reaction_closed_set.2 "ok" (by decide)
